import Mathlib

/-!
# Verification of the anonymous-submission relay bot (`bot.py`)

A shallow embedding of the bot's core workflow engine: the consent gate,
channel registry and binding protocol, deeplink codec, submission queue with
its approve/reject transitions, and the per-user send flow.

Conventions of the embedding:
* The SQLite tables become lists of rows inside a `DB` structure; each SQL
  statement of the source becomes an explicit list transformation.
* Calls to the external messaging platform (resolving chats, membership
  queries, sending messages) are may-fail collaborators; their results enter
  the handler functions as explicit arguments, and the outbound calls a
  handler performs are recorded in a returned list of `Effect`s, in the order
  the source performs them.
* The Python runtime processes updates sequentially (the application is built
  without concurrent update processing), so handler executions are modelled
  as atomic state transformations applied one after another.
* Machine integers are `Int`/`Nat`; SHA-256 arithmetic is `Nat` with explicit
  `% 2^32`.
-/

/-! ## Python string helpers -/

/-- The whitespace set of Python's `str.strip()` (ASCII subset). -/
def pySpace (c : Char) : Bool :=
  c == ' ' || c == '\t' || c == '\n' || c == '\r' || c == Char.ofNat 11 || c == Char.ofNat 12

/-- Python `str.strip()`. -/
def pyStrip (s : String) : String :=
  String.mk (((s.toList.dropWhile pySpace).reverse.dropWhile pySpace).reverse)

/-- Python `str.isdigit()` (ASCII digits). -/
def pyIsDigit (s : String) : Bool :=
  s.length > 0 && s.toList.all (·.isDigit)

/-! ## SHA-256 (the `hashlib.sha256` collaborator, over byte lists) -/

/-- Truncation to 32 bits. -/
def u32 (n : Nat) : Nat := n % 4294967296

/-- 32-bit rotate right. -/
def rotr (r n : Nat) : Nat := u32 ((n >>> r) ||| (n <<< (32 - r)))

/-- Integer cube root by descending-bit search (inputs stay below `2^105`
here, so 44 bits of result suffice). -/
def icbrt (n : Nat) : Nat :=
  (List.range 44).foldl (fun r i =>
    let c := r + (1 <<< (43 - i))
    if c * c * c ≤ n then c else r) 0

/-- The first 64 primes, from which FIPS 180-4 derives the SHA-256 constants. -/
def primes64 : List Nat :=
  [2, 3, 5, 7, 11, 13, 17, 19, 23, 29, 31, 37, 41, 43, 47, 53,
   59, 61, 67, 71, 73, 79, 83, 89, 97, 101, 103, 107, 109, 113, 127, 131,
   137, 139, 149, 151, 157, 163, 167, 173, 179, 181, 191, 193, 197, 199, 211, 223,
   227, 229, 233, 239, 241, 251, 257, 263, 269, 271, 277, 281, 283, 293, 307, 311]

/-- SHA-256 round constants: the first 32 fraction bits of the cube roots of
the first 64 primes. -/
def shaK : List Nat := primes64.map (fun p => u32 (icbrt (p <<< 96)))

/-- SHA-256 initial hash state: the first 32 fraction bits of the square
roots of the first 8 primes. -/
def shaH0 : List Nat := (primes64.take 8).map (fun p => u32 (Nat.sqrt (p <<< 64)))

/-- Split a list into chunks of `n+1` elements (last chunk may be short). -/
def chunksOf (n : Nat) : List α → List (List α)
  | [] => []
  | a :: rest => (a :: rest.take n) :: chunksOf n (rest.drop n)
termination_by l => l.length
decreasing_by
  simp only [List.length_drop, List.length_cons]
  omega

/-- SHA-256 message padding over a byte list. -/
def sha256pad (msg : List Nat) : List Nat :=
  let L := msg.length * 8
  let z := (64 - (msg.length + 9) % 64) % 64
  msg ++ [0x80] ++ List.replicate z 0 ++ (List.range 8).map (fun i => (L >>> ((7 - i) * 8)) % 256)

/-- Big-endian 32-bit words from a 64-byte chunk. -/
def shaWords (chunk : List Nat) : List Nat :=
  (chunksOf 3 chunk).map (fun b => b.foldl (fun acc x => acc * 256 + x) 0)

/-- SHA-256 message schedule: extend 16 words to 64. -/
def shaSchedule (w16 : Array Nat) : Array Nat :=
  (List.range 48).foldl (fun w i =>
    let x15 := w.getD (i + 1) 0
    let x2 := w.getD (i + 14) 0
    let s0 := rotr 7 x15 ^^^ rotr 18 x15 ^^^ (x15 >>> 3)
    let s1 := rotr 17 x2 ^^^ rotr 19 x2 ^^^ (x2 >>> 10)
    w.push (u32 (w.getD i 0 + s0 + w.getD (i + 9) 0 + s1))) w16

/-- One SHA-256 compression step. -/
def shaStep (w : Array Nat) (st : List Nat) (i : Nat) : List Nat :=
  match st with
  | [a, b, c, d, e, f, g, h] =>
    let S1 := rotr 6 e ^^^ rotr 11 e ^^^ rotr 25 e
    let ch := (e &&& f) ^^^ ((e ^^^ 4294967295) &&& g)
    let t1 := u32 (h + S1 + ch + shaK.getD i 0 + w.getD i 0)
    let S0 := rotr 2 a ^^^ rotr 13 a ^^^ rotr 22 a
    let mj := (a &&& b) ^^^ (a &&& c) ^^^ (b &&& c)
    let t2 := u32 (S0 + mj)
    [u32 (t1 + t2), a, b, c, u32 (d + t1), e, f, g]
  | _ => st

/-- Compress one 64-byte chunk into the hash state. -/
def shaCompress (st : List Nat) (chunk : List Nat) : List Nat :=
  let w := shaSchedule (shaWords chunk).toArray
  let fin := (List.range 64).foldl (shaStep w) st
  List.zipWith (fun x y => u32 (x + y)) st fin

/-- SHA-256 of a byte list, as a 32-byte list. -/
def sha256 (msg : List Nat) : List Nat :=
  let fin := (chunksOf 63 (sha256pad msg)).foldl shaCompress shaH0
  (fin.map (fun wd => [(wd >>> 24) % 256, (wd >>> 16) % 256, (wd >>> 8) % 256, wd % 256])).flatten

/-! ## Base32 (the `base64.b32encode` collaborator) -/

/-- RFC 4648 base32 alphabet. -/
def b32Alphabet : List Char := "ABCDEFGHIJKLMNOPQRSTUVWXYZ234567".toList

/-- Most-significant-bit-first bits of a byte. -/
def byteBits (b : Nat) : List Bool := (List.range 8).map (fun i => b.testBit (7 - i))

/-- Value of a bit group, zero-padded on the right to 5 bits. -/
def bitsVal (l : List Bool) : Nat :=
  (l.foldl (fun a b => 2 * a + (if b then 1 else 0)) 0) <<< (5 - l.length)

/-- `base64.b32encode` over a byte list ('=' padded to a multiple of 8 chars). -/
def b32encode (bs : List Nat) : List Char :=
  let dataChars := (chunksOf 4 ((bs.map byteBits).flatten)).map (fun g => b32Alphabet.getD (bitsVal g) 'A')
  dataChars ++ List.replicate ((8 - dataChars.length % 8) % 8) '='

/-- Python `.rstrip("=")` on a char list. -/
def rstripEq (l : List Char) : List Char := (l.reverse.dropWhile (· == '=')).reverse

/-! ## Deeplink codec (`make_code_for_chat`) -/

/-- `make_code_for_chat`: sha256 of `"{chat_id}:{DEEPLINK_SALT}"`, base32,
padding stripped, truncated to 20 chars. The process-wide salt is passed
explicitly. -/
def make_code_for_chat (salt : String) (chat_id : Int) : String :=
  let raw := (toString chat_id ++ ":" ++ salt).toUTF8.toList.map (fun b => b.toNat)
  let digest := sha256 raw
  String.mk ((rstripEq (b32encode digest)).take 20)

/-! ## Channel input validation (`CHANNEL_INPUT_RE`, `normalize_channel_input`) -/

/-- A char matching the class `[A-Za-z0-9_]`. -/
def isWordChar (c : Char) : Bool := c.isAlpha || c.isDigit || c == '_'

/-- The regex `^@?[A-Za-z0-9_]{5,}$|^-100\d{5,}$` as a Bool predicate
(written over the char list so it evaluates by kernel reduction). -/
def channel_input_ok (s : String) : Bool :=
  (let t := match s.toList with
            | '@' :: rest => rest
            | cs => cs
   t.length ≥ 5 && t.all isWordChar)
  || (match s.toList with
      | '-' :: '1' :: '0' :: '0' :: rest => rest.length ≥ 5 && rest.all (·.isDigit)
      | _ => false)

/-- `normalize_channel_input`. -/
def normalize_channel_input (s0 : String) : String :=
  let s := pyStrip s0
  match s.toList with
  | '@' :: _ => s
  | cs =>
    if (cs.length > 0 && cs.all (·.isDigit))
        || (match cs with
            | '-' :: rest => rest.length > 0 && rest.all (·.isDigit)
            | _ => false) then s
    else if cs.length ≥ 5 && cs.all isWordChar then String.mk ('@' :: cs)
    else s

/-! ## Data model (the SQLite tables of `db_init_and_migrate`) -/

/-- Submission status constants. -/
def STATUS_PENDING : String := "pending"

/-- Status of a published submission. -/
def STATUS_SENT : String := "sent"

/-- Status of a rejected submission. -/
def STATUS_REJECTED : String := "rejected"

/-- A row of `user_consents`. -/
structure ConsentRow where
  user_id : Int
  accepted : Int
  policy_hash : String
  accepted_at : String
deriving DecidableEq, Repr

/-- A row of `channels`. -/
structure Channel where
  chat_id : Int
  username : Option String
  owner_user_id : Int
  moderation : Int
  reviewers_mode : String
  created_at : String
deriving DecidableEq, Repr

/-- A row of `deeplinks`. -/
structure DeeplinkRow where
  code : String
  chat_id : Int
  created_at : String
deriving DecidableEq, Repr

/-- A row of `channel_reviewers`. -/
structure ReviewerRow where
  chat_id : Int
  user_id : Int
  created_at : String
deriving DecidableEq, Repr

/-- A row of `submissions`. -/
structure Submission where
  id : Int
  chat_id : Int
  sender_user_id : Int
  content_type : String
  text : Option String
  file_id : Option String
  status : String
  created_at : String
deriving DecidableEq, Repr

/-- The durable store: one list per table, plus the AUTOINCREMENT counter of
`submissions`. -/
structure DB where
  user_consents : List ConsentRow
  channels : List Channel
  deeplinks : List DeeplinkRow
  channel_reviewers : List ReviewerRow
  submissions : List Submission
  next_sub_id : Int
deriving DecidableEq, Repr

/-! ## DB operations (the `async def` helpers over the tables) -/

/-- `get_user_consent`: `SELECT accepted, policy_hash FROM user_consents WHERE user_id=?`. -/
def get_user_consent (db : DB) (user_id : Int) : Option (Int × String) :=
  (db.user_consents.find? (fun r => r.user_id == user_id)).map (fun r => (r.accepted, r.policy_hash))

/-- `set_user_consent`: upsert keyed by `user_id`. -/
def set_user_consent (db : DB) (user_id : Int) (accepted : Int) (policy_hash now : String) : DB :=
  if db.user_consents.any (fun r => r.user_id == user_id) then
    { db with user_consents := db.user_consents.map (fun r =>
        if r.user_id == user_id then
          { r with accepted := accepted, policy_hash := policy_hash, accepted_at := now }
        else r) }
  else
    { db with user_consents := db.user_consents ++ [⟨user_id, accepted, policy_hash, now⟩] }

/-- `user_is_allowed`: the consent gate. `current_policy_hash` stands for the
module-level `POLICY_HASH` computed at process start. -/
def user_is_allowed (db : DB) (current_policy_hash : String) (user_id : Int) : Bool :=
  match get_user_consent db user_id with
  | none => false
  | some (accepted, ph) => accepted == 1 && ph == current_policy_hash

/-- The list update of `upsert_channel`'s `ON CONFLICT(chat_id) DO UPDATE SET
username=excluded.username, owner_user_id=excluded.owner_user_id`. -/
def upsertChanList (l : List Channel) (chat_id : Int) (username : Option String)
    (owner_user_id moderation : Int) (now : String) : List Channel :=
  if l.any (fun c => c.chat_id == chat_id) then
    l.map (fun c =>
      if c.chat_id == chat_id then { c with username := username, owner_user_id := owner_user_id }
      else c)
  else
    l ++ [⟨chat_id, username, owner_user_id, moderation, "owner", now⟩]

/-- `upsert_channel`: insert with `reviewers_mode='owner'`, or update only
`username` and `owner_user_id` on conflict. -/
def upsert_channel (db : DB) (chat_id : Int) (username : Option String)
    (owner_user_id : Int) (moderation : Int) (now : String) : DB :=
  { db with channels := upsertChanList db.channels chat_id username owner_user_id moderation now }

/-- `get_channel_by_chat_id`. -/
def get_channel_by_chat_id (db : DB) (chat_id : Int) : Option Channel :=
  db.channels.find? (fun c => c.chat_id == chat_id)

/-- `add_reviewer`: `INSERT OR IGNORE` into `channel_reviewers`. -/
def add_reviewer (db : DB) (chat_id user_id : Int) (now : String) : DB :=
  if db.channel_reviewers.any (fun r => r.chat_id == chat_id && r.user_id == user_id) then db
  else { db with channel_reviewers := db.channel_reviewers ++ [⟨chat_id, user_id, now⟩] }

/-- `remove_reviewer`. -/
def remove_reviewer (db : DB) (chat_id user_id : Int) : DB :=
  { db with channel_reviewers :=
      db.channel_reviewers.filter (fun r => !(r.chat_id == chat_id && r.user_id == user_id)) }

/-- `list_reviewers`. -/
def list_reviewers (db : DB) (chat_id : Int) : List Int :=
  (db.channel_reviewers.filter (fun r => r.chat_id == chat_id)).map (fun r => r.user_id)

/-- `create_deeplink`: `INSERT OR REPLACE` keyed by `code`. -/
def create_deeplink (db : DB) (code : String) (chat_id : Int) (now : String) : DB :=
  { db with deeplinks := ⟨code, chat_id, now⟩ :: db.deeplinks.filter (fun r => !(r.code == code)) }

/-- `resolve_deeplink`. -/
def resolve_deeplink (db : DB) (code : String) : Option Int :=
  (db.deeplinks.find? (fun r => r.code == code)).map (fun r => r.chat_id)

/-- `create_submission`: INSERT returning `lastrowid`. -/
def create_submission (db : DB) (chat_id sender_user_id : Int) (content_type : String)
    (text file_id : Option String) (status now : String) : Int × DB :=
  let sid := db.next_sub_id
  (sid, { db with
            submissions := db.submissions ++ [⟨sid, chat_id, sender_user_id, content_type, text, file_id, status, now⟩],
            next_sub_id := sid + 1 })

/-- `get_submission`. -/
def get_submission (db : DB) (sub_id : Int) : Option Submission :=
  db.submissions.find? (fun s => s.id == sub_id)

/-- `set_submission_status`: `UPDATE submissions SET status=? WHERE id=?`
(unconditional — no `status='pending'` guard in the source). -/
def set_submission_status (db : DB) (sub_id : Int) (status : String) : DB :=
  { db with submissions := db.submissions.map (fun s =>
      if s.id == sub_id then { s with status := status } else s) }

/-- The status currently stored for a submission id. -/
def statusOf (db : DB) (sub_id : Int) : Option String :=
  (get_submission db sub_id).map (fun s => s.status)

/-! ## Platform collaborator types and permission checks -/

/-- `telegram.constants.ChatMemberStatus`. -/
inductive MemberStatus where
  | owner
  | administrator
  | member
  | restricted
  | left
  | banned
deriving DecidableEq, Repr

/-- `verify_bind`: the three-way bind check. The platform answers arrive as
arguments: `getChat` is the result of `bot.get_chat` (`none` = the call
raised), `botMember`/`userMember` the results of the two `get_chat_member`
calls. Returns `(ok, reason, chat_id, username)`; the exception text
interpolated into the failure reasons is elided. -/
def verify_bind (getChat : Option (Int × Option String))
    (botMember userMember : Option MemberStatus) :
    Bool × String × Option Int × Option String :=
  match getChat with
  | none => (false, "Не могу получить канал. Проверь @username/chat_id и доступ.", none, none)
  | some (chat_id, username) =>
    match botMember with
    | none => (false, "Не могу проверить права бота.", none, none)
    | some bs =>
      if bs ≠ MemberStatus.administrator then
        (false, "Бот не администратор канала. Выдай боту админку (права на постинг).", none, none)
      else
        match userMember with
        | none => (false, "Не могу проверить владельца.", none, none)
        | some us =>
          if us ≠ MemberStatus.owner then
            (false, "Привязать канал может только владелец (creator), не админ.", none, none)
          else
            (true, "OK", some chat_id, username)

/-- `ensure_registered_channel`: resolve the input via the platform, then
require the chat to exist in the registry; any failure yields `none`. -/
def ensure_registered_channel (db : DB) (getChat : Option (Int × Option String)) : Option Int :=
  match getChat with
  | none => none
  | some (chat_id, _) => if (get_channel_by_chat_id db chat_id).isSome then some chat_id else none

/-- `can_moderate`. `member` is the live answer of `bot.get_chat_member` for
`(chat_id, user_id)` (`none` = the call raised), consulted only in the
`admins` branch. -/
def can_moderate (db : DB) (member : Option MemberStatus) (chat_id user_id : Int) : Bool :=
  match get_channel_by_chat_id db chat_id with
  | none => false
  | some ch =>
    if user_id == ch.owner_user_id then true
    else if ch.reviewers_mode == "owner" then false
    else if ch.reviewers_mode == "selected" then (list_reviewers db chat_id).contains user_id
    else if ch.reviewers_mode == "admins" then
      match member with
      | some st => st == MemberStatus.administrator || st == MemberStatus.owner
      | none => false
    else false

/-! ## Per-user interaction state (`USER_STATE`, `st`, `reset_send`) -/

/-- The staged payload dict `{content_type, text, file_id}`. -/
structure PendingContent where
  content_type : String
  text : Option String
  file_id : Option String
deriving DecidableEq, Repr

/-- One user's in-memory state dict. -/
structure UserState where
  mode : Option String
  selected_chat_id : Option Int
  pending : Option PendingContent
  rv_chat_id : Option Int
deriving DecidableEq, Repr

/-- The fresh state `st` creates on first use. -/
def freshState : UserState := ⟨none, none, none, none⟩

/-- `reset_send`: mode, selected channel and staged content cleared. -/
def reset_send (s : UserState) : UserState :=
  { s with mode := none, selected_chat_id := none, pending := none }

/-- Python truthiness of an optional integer (`None` and `0` are falsy). -/
def truthyOptInt : Option Int → Bool
  | none => false
  | some n => n != 0

/-! ## Outbound effects -/

/-- A send call to the messaging platform (`post_to_channel`'s dispatch). -/
inductive PlatformSend where
  | message (chat_id : Int) (text : String)
  | media (chat_id : Int) (kind : String) (file_id : Option String) (caption : Option String)
deriving DecidableEq, Repr

/-- One observable action of a handler, recorded in source order. -/
inductive Effect where
  /-- A successful publish into a channel. -/
  | send (call : PlatformSend)
  /-- A publish attempt on which the platform raised. -/
  | sendFailed (chat_id : Int)
  /-- `bot.send_message` to the submission's sender (attempted; failures are
  swallowed by the source). -/
  | notifySender (user_id : Int) (msg : String)
  /-- A reply/edit shown to the interacting user (reviewer or sender). -/
  | replyUser (msg : String)
  /-- `send_ticket_to_owner`. -/
  | ticket (owner_user_id sub_id : Int)
  /-- The durable write of `create_submission`, as a step marker. -/
  | createSub (sub_id : Int) (status : String)
  /-- The durable write of `set_submission_status`, as a step marker. -/
  | setStatus (sub_id : Int) (status : String)
  /-- `event_log` (redacted operator notification). -/
  | eventLog (msg : String)
deriving DecidableEq, Repr

/-- Is this effect a successful publish? -/
def isSendEffect : Effect → Bool
  | Effect.send _ => true
  | _ => false

/-- Is this effect a sender notification? -/
def isNotifySender : Effect → Bool
  | Effect.notifySender _ _ => true
  | _ => false

/-- Is this effect a status persist? -/
def isSetStatus : Effect → Bool
  | Effect.setStatus _ _ => true
  | _ => false

/-- `post_to_channel`: dispatch on content type; captions use Python string
truthiness (empty caption becomes `None`). -/
def post_to_channel (chat_id : Int) (p : PendingContent) : PlatformSend :=
  let text := pyStrip (p.text.getD "")
  if p.content_type == "text" then PlatformSend.message chat_id text
  else if p.content_type == "photo" || p.content_type == "video" || p.content_type == "document"
       || p.content_type == "audio" || p.content_type == "voice" then
    PlatformSend.media chat_id p.content_type p.file_id (if text == "" then none else some text)
  else PlatformSend.message chat_id text

/-! ## Handlers

Each handler takes the current durable store, the user's state, the inbound
data and the platform's answers, and returns the new store, the new user
state (where the handler mutates it) and the ordered effect list. -/

/-- `on_text`: the plain-text input handler. `getChat` serves both the bind
flow (`verify_bind`) and the pick-channel flow (`ensure_registered_channel`);
`botMember`/`userMember` are the bind flow's membership answers. -/
def on_text (db : DB) (uid : Int) (s : UserState) (raw : String)
    (getChat : Option (Int × Option String)) (botMember userMember : Option MemberStatus)
    (now : String) : DB × UserState × List Effect :=
  let text := pyStrip raw
  -- manage selected reviewers add/del
  if s.mode == some "rv_add_wait" || s.mode == some "rv_del_wait" then
    let chat_id := s.rv_chat_id.getD 0
    match get_channel_by_chat_id db chat_id with
    | none => (db, { s with mode := none, rv_chat_id := none }, [Effect.replyUser "Нет доступа."])
    | some ch =>
      if ch.owner_user_id ≠ uid then
        (db, { s with mode := none, rv_chat_id := none }, [Effect.replyUser "Нет доступа."])
      else if !pyIsDigit text then
        (db, s, [Effect.replyUser "Нужен числовой user_id."])
      else
        let target : Int := (text.toNat?.getD 0 : Nat)
        if s.mode == some "rv_add_wait" then
          (add_reviewer db chat_id target now,
           { s with mode := none, rv_chat_id := none },
           [Effect.replyUser ("Добавлен: " ++ toString target),
            Effect.eventLog ("Добавлен проверяющий: channel=" ++ toString chat_id)])
        else
          (remove_reviewer db chat_id target,
           { s with mode := none, rv_chat_id := none },
           [Effect.replyUser ("Удалён: " ++ toString target),
            Effect.eventLog ("Удалён проверяющий: channel=" ++ toString chat_id)])
  -- bind flow
  else if s.mode == some "ctl_bind_wait" then
    let channel_in := normalize_channel_input text
    if !channel_input_ok channel_in then
      (db, s, [Effect.replyUser "Неверный формат. Введи @username или -100...."])
    else
      match verify_bind getChat botMember userMember with
      | (false, reason, _, _) =>
        (db, s, [Effect.replyUser ("❌ Не удалось привязать: " ++ reason)])
      | (true, _, some chat_id, username) =>
        (upsert_channel db chat_id username uid 1 now,
         { s with mode := none },
         [Effect.replyUser ("✅ Канал привязан.\nchat_id: " ++ toString chat_id
            ++ "\nusername: " ++ (match username with | some u => "@" ++ u | none => "нет")
            ++ "\nМодерация: ВКЛ"),
          Effect.eventLog ("Канал привязан: channel=" ++ toString chat_id)])
      | (true, _, none, _) => (db, s, [])  -- unreachable: verify_bind ok carries a chat_id
  -- send: pick channel
  else if s.mode == some "send_pick_channel" then
    let channel_in := normalize_channel_input text
    if !channel_input_ok channel_in then
      (db, s, [Effect.replyUser "Неверный формат. Введи @username или -100...."])
    else
      match ensure_registered_channel db getChat with
      | none =>
        (db, s, [Effect.replyUser ("❌ Этот канал не зарегистрирован.\n"
            ++ "Его должен сначала привязать владелец через «Контролировать».")])
      | some registered_chat_id =>
        (db, { s with selected_chat_id := some registered_chat_id, mode := some "send_wait_content" },
         [Effect.replyUser ("Канал выбран.\nТеперь пришли текст или медиа (фото/видео/файл/голос) и, если нужно, подпись.\n"
            ++ "После этого появится кнопка «Отправить».")])
  -- if channel selected, treat text as content
  else if truthyOptInt s.selected_chat_id && (s.mode == none || s.mode == some "send_wait_content") then
    if text.length < 1 then
      (db, s, [Effect.replyUser "Пустое сообщение."])
    else
      (db, { s with pending := some ⟨"text", some text, none⟩, mode := some "send_wait_content" },
       [Effect.replyUser "Готово. Подтверди отправку:"])
  else
    (db, s, [Effect.replyUser "Нажми /start и выбери действие."])

/-- `on_send_buttons`: the confirm/cancel callback handler. `publishOk` is
whether `post_to_channel` succeeds on the platform, `err` the exception text
otherwise. -/
def on_send_buttons (db : DB) (uid : Int) (s : UserState) (data : String)
    (publishOk : Bool) (err : String) (now : String) : DB × UserState × List Effect :=
  if data == "send_cancel" then
    (db, reset_send s, [Effect.replyUser "Отменено."])
  else if data != "send_confirm" then
    (db, s, [])
  else
    match s.selected_chat_id, s.pending with
    | some chat_id, some pending =>
      if chat_id == 0 then
        -- Python truthiness: a zero chat id is falsy
        (db, reset_send s, [Effect.replyUser "Нечего отправлять."])
      else
        match get_channel_by_chat_id db chat_id with
        | none => (db, reset_send s, [Effect.replyUser "Канал не зарегистрирован владельцем."])
        | some ch =>
          if ch.moderation == 1 then
            let (sub_id, db1) := create_submission db chat_id uid pending.content_type
                pending.text pending.file_id STATUS_PENDING now
            (db1, reset_send s,
             [Effect.createSub sub_id STATUS_PENDING,
              Effect.replyUser "Сообщение отправлено на проверку 🕵️‍♂️",
              Effect.ticket ch.owner_user_id sub_id,
              Effect.eventLog ("Новое сообщение на проверку: channel=" ++ toString chat_id
                ++ ", sid=" ++ toString sub_id)])
          else if publishOk then
            let (sub_id, db1) := create_submission db chat_id uid pending.content_type
                pending.text pending.file_id STATUS_SENT now
            (db1, reset_send s,
             [Effect.send (post_to_channel chat_id pending),
              Effect.createSub sub_id STATUS_SENT,
              Effect.replyUser "Сообщение отправлено ✅",
              Effect.eventLog ("Сообщение отправлено напрямую: channel=" ++ toString chat_id)])
          else
            (db, reset_send s,
             [Effect.sendFailed chat_id,
              Effect.replyUser ("Не смог отправить в канал. Ошибка: " ++ err),
              Effect.eventLog ("Ошибка отправки в канал: channel=" ++ toString chat_id)])
    | _, _ =>
      (db, reset_send s, [Effect.replyUser "Нечего отправлять."])

/-- `on_moderation`: the approve/reject callback handler. `approve` selects
between the `mod_ok:`/`mod_no:` prefixes of the callback data, `sub_id` is
the parsed id, `member` feeds `can_moderate`'s live membership query, and
`publishOk`/`err` describe the platform's answer to `post_to_channel`. -/
def on_moderation (db : DB) (uid : Int) (approve : Bool) (sub_id : Int)
    (member : Option MemberStatus) (publishOk : Bool) (err : String) : DB × List Effect :=
  match get_submission db sub_id with
  | none => (db, [Effect.replyUser "Заявка не найдена."])
  | some sub =>
    if sub.status != STATUS_PENDING then
      (db, [Effect.replyUser "Уже обработано."])
    else if !(can_moderate db member sub.chat_id uid) then
      (db, [Effect.replyUser "Нет доступа."])
    else if approve then
      if publishOk then
        (set_submission_status db sub_id STATUS_SENT,
         [Effect.notifySender sub.sender_user_id "Отправка сообщения была одобрена проверкой ✅",
          Effect.send (post_to_channel sub.chat_id ⟨sub.content_type, sub.text, sub.file_id⟩),
          Effect.setStatus sub_id STATUS_SENT,
          Effect.notifySender sub.sender_user_id "Сообщение отправлено ✅",
          Effect.replyUser "✅ Одобрено и опубликовано",
          Effect.eventLog ("Сообщение одобрено и отправлено: channel=" ++ toString sub.chat_id
            ++ ", sid=" ++ toString sub_id)])
      else
        (db,
         [Effect.notifySender sub.sender_user_id "Отправка сообщения была одобрена проверкой ✅",
          Effect.sendFailed sub.chat_id,
          Effect.replyUser ("Ошибка отправки в канал: " ++ err),
          Effect.eventLog ("Ошибка при публикации после одобрения: channel=" ++ toString sub.chat_id
            ++ ", sid=" ++ toString sub_id)])
    else
      (set_submission_status db sub_id STATUS_REJECTED,
       [Effect.setStatus sub_id STATUS_REJECTED,
        Effect.notifySender sub.sender_user_id "Сообщение отклонено ❌",
        Effect.replyUser "❌ Отклонено",
        Effect.eventLog ("Сообщение отклонено: channel=" ++ toString sub.chat_id
          ++ ", sid=" ++ toString sub_id)])

/-- The ordering property asserted by the spec for an approval: no sender
notification and no status persist before the publish (formalised from the
spec's words, to be compared with the code's trace). -/
def publish_comes_first (tr : List Effect) : Bool :=
  (tr.takeWhile (fun e => !isSendEffect e)).all (fun e => !isNotifySender e && !isSetStatus e)

/-! ## Example store used by the witnesses -/

/-- A small concrete store: a consenting user 7; channels owned by user 1 in
each reviewer mode (moderation off on `-100600`); reviewer 9 allow-listed on
`-100700`; one pending text submission from sender 42. -/
def exDB : DB :=
  { user_consents := [⟨7, 1, "hash-one", "t0"⟩]
  , channels :=
      [⟨-100500, some "chan", 1, 1, "owner", "t0"⟩,
       ⟨-100600, none, 1, 0, "owner", "t0"⟩,
       ⟨-100700, none, 1, 1, "selected", "t0"⟩,
       ⟨-100800, none, 1, 1, "admins", "t0"⟩]
  , deeplinks := []
  , channel_reviewers := [⟨-100700, 9, "t0"⟩]
  , submissions := [⟨1, -100500, 42, "text", some "hi", none, "pending", "t0"⟩]
  , next_sub_id := 2 }

/-! ## List-level lemmas for the row operations -/

theorem find?_none_of_any_false {α} (key : α → Bool) (l : List α)
    (h : l.any key = false) : l.find? key = none := by
  rw [List.find?_eq_none]
  exact List.any_eq_false.mp h

theorem any_false_of_find?_none {α} (key : α → Bool) (l : List α)
    (h : l.find? key = none) : l.any key = false := by
  rw [List.any_eq_false]
  exact List.find?_eq_none.mp h

theorem find?_some_of_any_true {α} (key : α → Bool) (l : List α)
    (h : l.any key = true) : ∃ r, l.find? key = some r := by
  obtain ⟨x, hx, hkey⟩ := List.any_eq_true.mp h
  cases hf : l.find? key with
  | some r => exact ⟨r, rfl⟩
  | none => exact absurd hkey (by simpa using List.find?_eq_none.mp hf x hx)

theorem find?_map_update {α} (key : α → Bool) (upd : α → α)
    (hk : ∀ a, key (upd a) = key a) (l : List α) (r : α)
    (h : l.find? key = some r) :
    (l.map (fun a => if key a then upd a else a)).find? key = some (upd r) := by
  induction l with
  | nil => simp at h
  | cons a t ih =>
    by_cases ha : key a = true
    · rw [List.find?_cons_of_pos _ ha] at h
      cases h
      simp [ha, List.find?_cons_of_pos, hk]
    · have ha' : key a = false := by simpa using ha
      rw [List.find?_cons_of_neg _ (by simp [ha'])] at h
      simpa [ha', List.find?_cons_of_neg, hk] using ih h

theorem find?_append_single {α} (key : α → Bool) (l : List α) (x : α)
    (h : l.find? key = none) (hx : key x = true) : (l ++ [x]).find? key = some x := by
  induction l with
  | nil => rw [List.nil_append]; exact List.find?_cons_of_pos _ hx
  | cons a t ih =>
    by_cases ha : key a = true
    · rw [List.find?_cons_of_pos _ ha] at h
      exact absurd h (by simp)
    · have ha' : key a = false := by simpa using ha
      rw [List.find?_cons_of_neg _ (by simp [ha'])] at h
      simpa [List.cons_append, List.find?_cons_of_neg, ha'] using ih h

/-! ## Operation-level lemmas -/

theorem get_user_consent_set (db : DB) (uid : Int) (a : Int) (ph now : String) :
    get_user_consent (set_user_consent db uid a ph now) uid = some (a, ph) := by
  unfold get_user_consent set_user_consent
  by_cases hany : db.user_consents.any (fun r => r.user_id == uid) = true
  · obtain ⟨r, hr⟩ := find?_some_of_any_true _ _ hany
    simp only [hany, if_true]
    rw [find?_map_update (fun r => r.user_id == uid)
      (fun r => { r with accepted := a, policy_hash := ph, accepted_at := now })
      (fun _ => rfl) _ r hr]
    rfl
  · have hany' : db.user_consents.any (fun r => r.user_id == uid) = false := by simpa using hany
    simp only [hany', Bool.false_eq_true, if_false]
    rw [find?_append_single _ _ _ (find?_none_of_any_false _ _ hany') (by simp)]
    rfl

theorem get_channel_upsert_new (db : DB) (cid : Int) (un : Option String)
    (owner m : Int) (now : String) (h : get_channel_by_chat_id db cid = none) :
    get_channel_by_chat_id (upsert_channel db cid un owner m now) cid
      = some ⟨cid, un, owner, m, "owner", now⟩ := by
  unfold get_channel_by_chat_id upsert_channel upsertChanList
  unfold get_channel_by_chat_id at h
  have hany : db.channels.any (fun c => c.chat_id == cid) = false :=
    any_false_of_find?_none _ _ h
  simp only [hany, Bool.false_eq_true, if_false]
  exact find?_append_single _ _ _ h (by simp)

theorem get_channel_upsert_existing (db : DB) (cid : Int) (un : Option String)
    (owner m : Int) (now : String) (ch : Channel)
    (h : get_channel_by_chat_id db cid = some ch) :
    get_channel_by_chat_id (upsert_channel db cid un owner m now) cid
      = some { ch with username := un, owner_user_id := owner } := by
  unfold get_channel_by_chat_id upsert_channel upsertChanList
  unfold get_channel_by_chat_id at h
  have hkey := List.find?_some h
  have hany : db.channels.any (fun c => c.chat_id == cid) = true := by
    rw [List.any_eq_true]
    exact ⟨ch, List.mem_of_find?_eq_some h, hkey⟩
  simp only [hany, if_true]
  exact find?_map_update (fun c => c.chat_id == cid)
    (fun c => { c with username := un, owner_user_id := owner }) (fun _ => rfl) _ ch h

theorem get_submission_set_status (db : DB) (sid : Int) (st : String) (sub : Submission)
    (h : get_submission db sid = some sub) :
    get_submission (set_submission_status db sid st) sid = some { sub with status := st } := by
  unfold get_submission set_submission_status
  unfold get_submission at h
  exact find?_map_update (fun s => s.id == sid) (fun s => { s with status := st })
    (fun _ => rfl) _ sub h

/-! ## Claims -/

/-- **C5.** For every bound channel and user, `can_moderate` returns true for
the channel's owner regardless of reviewer mode; with reviewer mode `owner`
it returns false for every other user; with mode `selected` it returns true
for a non-owner iff that user is in the channel's allow-list; with mode
`admins` it returns true for a non-owner iff the platform currently reports
the user as administrator or owner of the channel; for an unbound channel it
returns false. -/
theorem can_moderate_spec (db : DB) (m : Option MemberStatus) (chat uid : Int) :
    (get_channel_by_chat_id db chat = none → can_moderate db m chat uid = false)
    ∧ (∀ ch, get_channel_by_chat_id db chat = some ch →
        (uid = ch.owner_user_id → can_moderate db m chat uid = true)
        ∧ (uid ≠ ch.owner_user_id →
            (ch.reviewers_mode = "owner" → can_moderate db m chat uid = false)
            ∧ (ch.reviewers_mode = "selected" →
                (can_moderate db m chat uid = true ↔ uid ∈ list_reviewers db chat))
            ∧ (ch.reviewers_mode = "admins" →
                (can_moderate db m chat uid = true ↔
                  m = some MemberStatus.administrator ∨ m = some MemberStatus.owner)))) := by
  constructor
  · intro h
    unfold can_moderate
    rw [h]
  · intro ch h
    constructor
    · intro he
      unfold can_moderate
      rw [h]
      simp [he]
    · intro hne
      refine ⟨?_, ?_, ?_⟩
      · intro hm
        unfold can_moderate
        rw [h]
        simp [hne, hm]
      · intro hm
        unfold can_moderate
        rw [h]
        simp only [hm]
        simp [hne, List.contains, List.elem_iff]
      · intro hm
        unfold can_moderate
        rw [h]
        simp only [hm]
        cases m with
        | none => simp [hne]
        | some st => cases st <;> simp [hne]

/-- **C5 witness.** Concrete instances: unbound channel, owner in every mode,
non-owner under `owner` mode, allow-listed non-owner under `selected`, and a
platform-reported administrator under `admins`. -/
theorem can_moderate_spec_witness :
    can_moderate exDB none (-100999) 5 = false
    ∧ can_moderate exDB none (-100500) 1 = true
    ∧ can_moderate exDB none (-100500) 9 = false
    ∧ can_moderate exDB none (-100700) 9 = true
    ∧ can_moderate exDB (some MemberStatus.administrator) (-100800) 9 = true :=
  ⟨(can_moderate_spec exDB none (-100999) 5).1 (by decide),
   ((can_moderate_spec exDB none (-100500) 1).2 ⟨-100500, some "chan", 1, 1, "owner", "t0"⟩
      (by decide)).1 rfl,
   (((can_moderate_spec exDB none (-100500) 9).2 ⟨-100500, some "chan", 1, 1, "owner", "t0"⟩
      (by decide)).2 (by decide)).1 rfl,
   ((((can_moderate_spec exDB none (-100700) 9).2 ⟨-100700, none, 1, 1, "selected", "t0"⟩
      (by decide)).2 (by decide)).2.1 rfl).mpr (by decide),
   ((((can_moderate_spec exDB (some MemberStatus.administrator) (-100800) 9).2
      ⟨-100800, none, 1, 1, "admins", "t0"⟩ (by decide)).2 (by decide)).2.2 rfl).mpr
      (Or.inl rfl)⟩

/-- **C6.** `user_is_allowed` is true iff the user's latest recorded consent
decision has `accepted = 1` and its stored policy hash equals the current
policy hash; a user with no recorded decision is not allowed; `set_user_consent`
overwrites so that the latest decision is what `get_user_consent` reports; and
a change of the current policy hash makes a previously allowed user not
allowed. -/
theorem consent_gate_spec (db : DB) (uid : Int) (currentHash otherHash now : String)
    (a : Int) (ph : String) :
    (user_is_allowed db currentHash uid = true ↔ get_user_consent db uid = some (1, currentHash))
    ∧ (get_user_consent db uid = none → user_is_allowed db currentHash uid = false)
    ∧ get_user_consent (set_user_consent db uid a ph now) uid = some (a, ph)
    ∧ (otherHash ≠ currentHash → user_is_allowed db currentHash uid = true →
        user_is_allowed db otherHash uid = false) := by
  refine ⟨?_, ?_, get_user_consent_set db uid a ph now, ?_⟩
  · unfold user_is_allowed
    cases hg : get_user_consent db uid with
    | none => simp
    | some pr =>
      obtain ⟨acc, hsh⟩ := pr
      simp [Bool.and_eq_true, and_comm]
  · intro h
    unfold user_is_allowed
    rw [h]
  · intro hne hall
    cases hg : get_user_consent db uid with
    | none => simp [user_is_allowed, hg]
    | some pr =>
      obtain ⟨acc, hsh⟩ := pr
      have hall' : acc = 1 ∧ hsh = currentHash := by
        simpa [user_is_allowed, hg, Bool.and_eq_true] using hall
      simp [user_is_allowed, hg, hall'.1, hall'.2, Ne.symm hne]

/-- **C6 witness.** User 8 accepts under hash `hash-one`: allowed under that
hash, no longer allowed once the current hash is `hash-two`. -/
theorem consent_gate_spec_witness :
    user_is_allowed (set_user_consent exDB 8 1 "hash-one" "t1") "hash-one" 8 = true
    ∧ user_is_allowed (set_user_consent exDB 8 1 "hash-one" "t1") "hash-two" 8 = false :=
  ⟨(consent_gate_spec (set_user_consent exDB 8 1 "hash-one" "t1") 8 "hash-one" "x" "t1"
      1 "hash-one").1.mpr (by decide),
   (consent_gate_spec (set_user_consent exDB 8 1 "hash-one" "t1") 8 "hash-one" "hash-two" "t1"
      1 "hash-one").2.2.2 (by decide)
     ((consent_gate_spec (set_user_consent exDB 8 1 "hash-one" "t1") 8 "hash-one" "x" "t1"
      1 "hash-one").1.mpr (by decide))⟩

/-- **C7.** `make_code_for_chat` is deterministic (a pure function of the salt
and chat id — two calls yield the same code); `resolve_deeplink` on a code no
row carries returns `none`; and resolving the code just issued for a chat id
returns that chat id. -/
theorem deeplink_codec_spec (salt : String) (chat : Int) (db : DB) (code now : String) :
    make_code_for_chat salt chat = make_code_for_chat salt chat
    ∧ ((∀ r ∈ db.deeplinks, r.code ≠ code) → resolve_deeplink db code = none)
    ∧ resolve_deeplink (create_deeplink db (make_code_for_chat salt chat) chat now)
        (make_code_for_chat salt chat) = some chat := by
  refine ⟨rfl, ?_, ?_⟩
  · intro h
    have hf : db.deeplinks.find? (fun r => r.code == code) = none :=
      List.find?_eq_none.mpr (fun r hr => by simp [h r hr])
    unfold resolve_deeplink
    rw [hf]
    rfl
  · unfold resolve_deeplink create_deeplink
    rw [List.find?_cons_of_pos _ (by simp)]
    rfl

/-- **C7 witness.** An unissued code resolves to nothing on the example store;
the code issued for channel `-100500` resolves back to it. -/
theorem deeplink_codec_spec_witness :
    resolve_deeplink exDB "UNISSUEDCODE" = none
    ∧ resolve_deeplink
        (create_deeplink exDB (make_code_for_chat "salt" (-100500)) (-100500) "t1")
        (make_code_for_chat "salt" (-100500)) = some (-100500) :=
  ⟨(deeplink_codec_spec "salt" 0 exDB "UNISSUEDCODE" "t1").2.1 (by decide),
   (deeplink_codec_spec "salt" (-100500) exDB "x" "t1").2.2⟩

/-- **C9.** On first successful bind of a channel the created record has
moderation 1 (enabled) and reviewer mode `owner` (the bind call site passes
moderation 1); on a re-bind of an already bound channel only `username` and
`owner_user_id` are refreshed — `moderation`, `reviewers_mode` and
`created_at` are left unchanged. -/
theorem upsert_channel_defaults_and_rebind (db : DB) (cid : Int) (un : Option String)
    (owner : Int) (now : String) :
    (get_channel_by_chat_id db cid = none →
      get_channel_by_chat_id (upsert_channel db cid un owner 1 now) cid
        = some ⟨cid, un, owner, 1, "owner", now⟩)
    ∧ (∀ ch, get_channel_by_chat_id db cid = some ch →
        get_channel_by_chat_id (upsert_channel db cid un owner 1 now) cid
          = some { ch with username := un, owner_user_id := owner }) :=
  ⟨fun h => get_channel_upsert_new db cid un owner 1 now h,
   fun ch h => get_channel_upsert_existing db cid un owner 1 now ch h⟩

/-- **C9 witness.** A fresh bind of `-100900` creates the record with
moderation 1 and mode `owner`; re-binding `-100600` (whose moderation is 0)
refreshes the handle but keeps moderation 0, mode `owner` and the original
creation time. -/
theorem upsert_channel_defaults_and_rebind_witness :
    get_channel_by_chat_id (upsert_channel exDB (-100900) (some "newchan") 5 1 "t1") (-100900)
      = some ⟨-100900, some "newchan", 5, 1, "owner", "t1"⟩
    ∧ get_channel_by_chat_id (upsert_channel exDB (-100600) (some "renamed") 1 1 "t1") (-100600)
      = some ⟨-100600, some "renamed", 1, 0, "owner", "t0"⟩ :=
  ⟨(upsert_channel_defaults_and_rebind exDB (-100900) (some "newchan") 5 "t1").1 (by decide),
   (upsert_channel_defaults_and_rebind exDB (-100600) (some "renamed") 1 "t1").2
     ⟨-100600, none, 1, 0, "owner", "t0"⟩ (by decide)⟩

/-! ## Moderation decision lemmas -/

theorem on_moderation_already_processed (db : DB) (uid : Int) (a : Bool) (sid : Int)
    (m : Option MemberStatus) (p : Bool) (e : String) (sub : Submission)
    (hg : get_submission db sid = some sub) (hs : (sub.status != STATUS_PENDING) = true) :
    on_moderation db uid a sid m p e = (db, [Effect.replyUser "Уже обработано."]) := by
  unfold on_moderation
  simp only [hg, hs, if_true]

theorem on_moderation_db_cases (db : DB) (uid : Int) (a : Bool) (sid : Int)
    (m : Option MemberStatus) (p : Bool) (e : String) :
    (on_moderation db uid a sid m p e).1 = db ∨
    ∃ sub, get_submission db sid = some sub ∧ sub.status = STATUS_PENDING ∧
      (on_moderation db uid a sid m p e).1
        = set_submission_status db sid (if a then STATUS_SENT else STATUS_REJECTED) := by
  unfold on_moderation
  cases hg : get_submission db sid with
  | none => exact Or.inl rfl
  | some sub =>
    simp only [hg]
    by_cases hA : (sub.status != STATUS_PENDING) = true
    · rw [if_pos hA]
      exact Or.inl rfl
    · rw [if_neg hA]
      have hpend : sub.status = STATUS_PENDING := by
        simpa [bne_iff_ne] using hA
      by_cases hB : (!(can_moderate db m sub.chat_id uid)) = true
      · rw [if_pos hB]
        exact Or.inl rfl
      · rw [if_neg hB]
        cases a with
        | true =>
          rw [if_pos rfl]
          cases p with
          | true =>
            rw [if_pos rfl]
            exact Or.inr ⟨sub, rfl, hpend, by simp⟩
          | false =>
            rw [if_neg (by simp)]
            exact Or.inl rfl
        | false =>
          rw [if_neg (by simp)]
          exact Or.inr ⟨sub, rfl, hpend, by simp⟩

/-- **C1.** Decisions are one-way and exclusive: when a first decision action
on a submission changes its stored status, a second decision action applied
afterwards leaves the store untouched (so at most one of the two changes the
status), replies "Уже обработано." (already processed), and performs no
publish and no sender notification of its own. -/
theorem moderation_decisions_exclusive (db : DB) (uid1 uid2 sid : Int) (a1 a2 : Bool)
    (m1 m2 : Option MemberStatus) (p1 p2 : Bool) (e1 e2 : String)
    (hchg : statusOf (on_moderation db uid1 a1 sid m1 p1 e1).1 sid ≠ statusOf db sid) :
    (on_moderation (on_moderation db uid1 a1 sid m1 p1 e1).1 uid2 a2 sid m2 p2 e2).1
      = (on_moderation db uid1 a1 sid m1 p1 e1).1
    ∧ (on_moderation (on_moderation db uid1 a1 sid m1 p1 e1).1 uid2 a2 sid m2 p2 e2).2
      = [Effect.replyUser "Уже обработано."]
    ∧ ((on_moderation (on_moderation db uid1 a1 sid m1 p1 e1).1 uid2 a2 sid m2 p2 e2).2.all
        (fun e => !isSendEffect e && !isNotifySender e)) = true := by
  rcases on_moderation_db_cases db uid1 a1 sid m1 p1 e1 with hdb | ⟨sub, hg, hpend, hset⟩
  · rw [hdb] at hchg
    exact absurd rfl hchg
  · have hget1 : get_submission (on_moderation db uid1 a1 sid m1 p1 e1).1 sid
        = some { sub with status := if a1 then STATUS_SENT else STATUS_REJECTED } := by
      rw [hset]
      exact get_submission_set_status db sid _ sub hg
    have hstne : (({ sub with status := if a1 then STATUS_SENT else STATUS_REJECTED }
        : Submission).status != STATUS_PENDING) = true := by
      cases a1 <;> simp [STATUS_SENT, STATUS_REJECTED, STATUS_PENDING]
    have h2 := on_moderation_already_processed (on_moderation db uid1 a1 sid m1 p1 e1).1
      uid2 a2 sid m2 p2 e2 _ hget1 hstne
    refine ⟨?_, ?_, ?_⟩
    · rw [h2]
    · rw [h2]
    · rw [h2]
      rfl

/-- **C1 witness.** Owner 1 approves submission 1 (changing its status to
`sent`); a second decision (a reject by user 9) leaves the store unchanged and
reports "already processed" with no publish and no sender notification. -/
theorem moderation_decisions_exclusive_witness :
    (on_moderation (on_moderation exDB 1 true 1 none true "").1 9 false 1 none true "").1
      = (on_moderation exDB 1 true 1 none true "").1
    ∧ (on_moderation (on_moderation exDB 1 true 1 none true "").1 9 false 1 none true "").2
      = [Effect.replyUser "Уже обработано."] :=
  ⟨(moderation_decisions_exclusive exDB 1 9 1 true false none none true true "" ""
      (by decide)).1,
   (moderation_decisions_exclusive exDB 1 9 1 true false none none true true "" ""
      (by decide)).2.1⟩

/-- **C2 counterexample.** The claim says an approval's first step is the
publish, followed by the status persist and then the sender notification.
On a concrete approval the code's first effect is already a sender
notification (the approval acknowledgement sent before `post_to_channel`),
so the claimed order is violated. -/
theorem approve_order_counterexample :
    publish_comes_first (on_moderation exDB 1 true 1 none true "").2 = false := by
  decide

/-- **C2 (amended).** When a reviewer approves a PENDING submission and the
publish succeeds, the effect order is: sender approval-acknowledgement
notification, then the publish, then the status persist to SENT, then the
sender delivery notification; for a reject, the status persist to REJECTED
comes first and then the sender is notified. -/
theorem approve_reject_effect_order (db : DB) (uid sid : Int) (sub : Submission)
    (m : Option MemberStatus) (err : String)
    (hg : get_submission db sid = some sub) (hpend : sub.status = STATUS_PENDING)
    (hcan : can_moderate db m sub.chat_id uid = true) :
    (on_moderation db uid true sid m true err).2 =
      [Effect.notifySender sub.sender_user_id "Отправка сообщения была одобрена проверкой ✅",
       Effect.send (post_to_channel sub.chat_id ⟨sub.content_type, sub.text, sub.file_id⟩),
       Effect.setStatus sid STATUS_SENT,
       Effect.notifySender sub.sender_user_id "Сообщение отправлено ✅",
       Effect.replyUser "✅ Одобрено и опубликовано",
       Effect.eventLog ("Сообщение одобрено и отправлено: channel=" ++ toString sub.chat_id
         ++ ", sid=" ++ toString sid)]
    ∧ (on_moderation db uid false sid m true err).2 =
      [Effect.setStatus sid STATUS_REJECTED,
       Effect.notifySender sub.sender_user_id "Сообщение отклонено ❌",
       Effect.replyUser "❌ Отклонено",
       Effect.eventLog ("Сообщение отклонено: channel=" ++ toString sub.chat_id
         ++ ", sid=" ++ toString sid)] := by
  have hs : (sub.status != STATUS_PENDING) = false := by simp [hpend]
  constructor <;>
  · unfold on_moderation
    simp [hg, hs, hcan]

/-- **C2 witness.** The amended order at a concrete approval and reject of
submission 1 by owner 1. -/
theorem approve_reject_effect_order_witness :
    (on_moderation exDB 1 true 1 none true "boom").2 =
      [Effect.notifySender 42 "Отправка сообщения была одобрена проверкой ✅",
       Effect.send (post_to_channel (-100500) ⟨"text", some "hi", none⟩),
       Effect.setStatus 1 STATUS_SENT,
       Effect.notifySender 42 "Сообщение отправлено ✅",
       Effect.replyUser "✅ Одобрено и опубликовано",
       Effect.eventLog ("Сообщение одобрено и отправлено: channel=" ++ toString (-100500 : Int)
         ++ ", sid=" ++ toString (1 : Int))]
    ∧ (on_moderation exDB 1 false 1 none true "boom").2 =
      [Effect.setStatus 1 STATUS_REJECTED,
       Effect.notifySender 42 "Сообщение отклонено ❌",
       Effect.replyUser "❌ Отклонено",
       Effect.eventLog ("Сообщение отклонено: channel=" ++ toString (-100500 : Int)
         ++ ", sid=" ++ toString (1 : Int))] :=
  approve_reject_effect_order exDB 1 1 ⟨1, -100500, 42, "text", some "hi", none, "pending", "t0"⟩
    none "boom" (by decide) (by decide) (by decide)

/-- **C3.** If publication fails during approval of a PENDING submission, the
store is unchanged (the submission's status remains PENDING, never SENT), the
failure is reported to the reviewer, and no status persist occurs. -/
theorem publish_failure_keeps_pending (db : DB) (uid sid : Int) (sub : Submission)
    (m : Option MemberStatus) (err : String)
    (hg : get_submission db sid = some sub) (hpend : sub.status = STATUS_PENDING)
    (hcan : can_moderate db m sub.chat_id uid = true) :
    (on_moderation db uid true sid m false err).1 = db
    ∧ statusOf (on_moderation db uid true sid m false err).1 sid = some STATUS_PENDING
    ∧ Effect.replyUser ("Ошибка отправки в канал: " ++ err)
        ∈ (on_moderation db uid true sid m false err).2
    ∧ (on_moderation db uid true sid m false err).2.all (fun e => !isSetStatus e) = true := by
  have hs : (sub.status != STATUS_PENDING) = false := by simp [hpend]
  have hr : on_moderation db uid true sid m false err
      = (db, [Effect.notifySender sub.sender_user_id "Отправка сообщения была одобрена проверкой ✅",
              Effect.sendFailed sub.chat_id,
              Effect.replyUser ("Ошибка отправки в канал: " ++ err),
              Effect.eventLog ("Ошибка при публикации после одобрения: channel="
                ++ toString sub.chat_id ++ ", sid=" ++ toString sid)]) := by
    unfold on_moderation
    simp [hg, hs, hcan]
  refine ⟨by rw [hr], ?_, ?_, ?_⟩
  · rw [hr]
    unfold statusOf
    rw [hg]
    simp [hpend]
  · rw [hr]
    simp
  · rw [hr]
    rfl

/-- **C3 witness.** A failed publish while owner 1 approves submission 1:
store untouched, status still pending, error reported to the reviewer. -/
theorem publish_failure_keeps_pending_witness :
    (on_moderation exDB 1 true 1 none false "timeout").1 = exDB
    ∧ statusOf (on_moderation exDB 1 true 1 none false "timeout").1 1 = some STATUS_PENDING
    ∧ Effect.replyUser ("Ошибка отправки в канал: " ++ "timeout")
        ∈ (on_moderation exDB 1 true 1 none false "timeout").2 :=
  ⟨(publish_failure_keeps_pending exDB 1 1 ⟨1, -100500, 42, "text", some "hi", none, "pending", "t0"⟩
      none "timeout" (by decide) (by decide) (by decide)).1,
   (publish_failure_keeps_pending exDB 1 1 ⟨1, -100500, 42, "text", some "hi", none, "pending", "t0"⟩
      none "timeout" (by decide) (by decide) (by decide)).2.1,
   (publish_failure_keeps_pending exDB 1 1 ⟨1, -100500, 42, "text", some "hi", none, "pending", "t0"⟩
      none "timeout" (by decide) (by decide) (by decide)).2.2.1⟩

/-! ## Bind-flow lemmas -/

theorem verify_bind_fails (gc : Option (Int × Option String)) (bm um : Option MemberStatus)
    (h : gc = none ∨ bm ≠ some MemberStatus.administrator ∨ um ≠ some MemberStatus.owner) :
    (verify_bind gc bm um).1 = false := by
  cases gc with
  | none => rfl
  | some pr =>
    obtain ⟨cid, un⟩ := pr
    cases bm with
    | none => rfl
    | some bs =>
      by_cases hbs : bs = MemberStatus.administrator
      · subst hbs
        cases um with
        | none => rfl
        | some us =>
          by_cases hus : us = MemberStatus.owner
          · subst hus
            rcases h with h | h | h
            · exact absurd h (by simp)
            · exact absurd rfl h
            · exact absurd rfl h
          · unfold verify_bind
            simp [hus]
      · unfold verify_bind
        simp [hbs]

/-- **C4.** In the bind flow, a Channel record is created or updated iff all
three checks pass: if the channel reference does not resolve, or the bot is
not an administrator of the channel, or the requesting user does not hold the
owner/creator role, the store is unchanged; if all three pass, the store
becomes the upsert of the resolved channel with the requester as owner, and
the registry then carries a record for that chat id owned by the requester. -/
theorem bind_upserts_iff_checks_pass (db : DB) (uid : Int) (s : UserState) (raw : String)
    (gc : Option (Int × Option String)) (bm um : Option MemberStatus) (now : String)
    (hm : s.mode = some "ctl_bind_wait") :
    ((gc = none ∨ bm ≠ some MemberStatus.administrator ∨ um ≠ some MemberStatus.owner) →
      (on_text db uid s raw gc bm um now).1 = db)
    ∧ (∀ cid un, channel_input_ok (normalize_channel_input (pyStrip raw)) = true →
        gc = some (cid, un) → bm = some MemberStatus.administrator →
        um = some MemberStatus.owner →
        (on_text db uid s raw gc bm um now).1 = upsert_channel db cid un uid 1 now
        ∧ ∃ ch, get_channel_by_chat_id (on_text db uid s raw gc bm um now).1 cid = some ch
            ∧ ch.owner_user_id = uid ∧ ch.username = un) := by
  constructor
  · intro hfail
    rcases hv : verify_bind gc bm um with ⟨ok, reason, copt, uopt⟩
    have hok : ok = false := by
      have hvf := verify_bind_fails gc bm um hfail
      rw [hv] at hvf
      exact hvf
    subst hok
    unfold on_text
    simp only [hm]
    simp [hv]
    split
    · rfl
    · rfl
  · intro cid un hre hgc hbm hum
    have hv : verify_bind gc bm um = (true, "OK", some cid, un) := by
      subst hgc
      subst hbm
      subst hum
      rfl
    have h1 : (on_text db uid s raw gc bm um now).1 = upsert_channel db cid un uid 1 now := by
      unfold on_text
      simp only [hm]
      simp [hv, hre]
    refine ⟨h1, ?_⟩
    rw [h1]
    cases hch : get_channel_by_chat_id db cid with
    | none => exact ⟨_, get_channel_upsert_new db cid un uid 1 now hch, rfl, rfl⟩
    | some ch => exact ⟨_, get_channel_upsert_existing db cid un uid 1 now ch hch, rfl, rfl⟩

/-- **C4 witness.** User 3 binds `@mychannel` (resolvable, bot is admin, user
is owner): the store becomes the upsert. With the user merely an
administrator, the store is unchanged. -/
theorem bind_upserts_iff_checks_pass_witness :
    (on_text exDB 3 ⟨some "ctl_bind_wait", none, none, none⟩ "@mychannel"
        (some (-100900, some "mychannel")) (some MemberStatus.administrator)
        (some MemberStatus.owner) "t1").1
      = upsert_channel exDB (-100900) (some "mychannel") 3 1 "t1"
    ∧ (on_text exDB 3 ⟨some "ctl_bind_wait", none, none, none⟩ "@mychannel"
        (some (-100900, some "mychannel")) (some MemberStatus.administrator)
        (some MemberStatus.administrator) "t1").1 = exDB :=
  ⟨((bind_upserts_iff_checks_pass exDB 3 ⟨some "ctl_bind_wait", none, none, none⟩ "@mychannel"
      (some (-100900, some "mychannel")) (some MemberStatus.administrator)
      (some MemberStatus.owner) "t1" rfl).2 (-100900) (some "mychannel") (by decide)
      rfl rfl rfl).1,
   (bind_upserts_iff_checks_pass exDB 3 ⟨some "ctl_bind_wait", none, none, none⟩ "@mychannel"
      (some (-100900, some "mychannel")) (some MemberStatus.administrator)
      (some MemberStatus.administrator) "t1" rfl).1 (Or.inr (Or.inr (by decide)))⟩

/-- **C8.** Confirming staged text content for a registered channel with
moderation disabled: on a successful publish exactly one submission record is
appended, with status SENT and the staged text, and the effect trace carries
exactly one publish, a message with that text; on a failed publish the store
is unchanged, the error is reported to the sender, and no publish occurs. -/
theorem direct_send_round_trip (db : DB) (uid cid : Int) (s : UserState) (t err now : String)
    (ch : Channel)
    (h1 : s.selected_chat_id = some cid) (h2 : (cid == 0) = false)
    (h3 : s.pending = some ⟨"text", some t, none⟩)
    (h4 : get_channel_by_chat_id db cid = some ch) (h5 : (ch.moderation == 1) = false)
    (h6 : pyStrip t = t) :
    ((on_send_buttons db uid s "send_confirm" true err now).1.submissions
        = db.submissions ++ [⟨db.next_sub_id, cid, uid, "text", some t, none, STATUS_SENT, now⟩]
      ∧ (on_send_buttons db uid s "send_confirm" true err now).2.2.filter isSendEffect
        = [Effect.send (PlatformSend.message cid t)])
    ∧ ((on_send_buttons db uid s "send_confirm" false err now).1 = db
      ∧ Effect.replyUser ("Не смог отправить в канал. Ошибка: " ++ err)
          ∈ (on_send_buttons db uid s "send_confirm" false err now).2.2
      ∧ (on_send_buttons db uid s "send_confirm" false err now).2.2.filter isSendEffect = []) := by
  have hpost : post_to_channel cid ⟨"text", some t, none⟩ = PlatformSend.message cid t := by
    unfold post_to_channel
    simp [h6]
  refine ⟨⟨?_, ?_⟩, ?_, ?_, ?_⟩
  · unfold on_send_buttons
    simp [h1, h3, h2, h4, h5, create_submission]
  · unfold on_send_buttons
    simp [h1, h3, h2, h4, h5, create_submission, hpost, isSendEffect, List.filter]
  · unfold on_send_buttons
    simp [h1, h3, h2, h4, h5]
  · unfold on_send_buttons
    simp [h1, h3, h2, h4, h5]
  · unfold on_send_buttons
    simp [h1, h3, h2, h4, h5, isSendEffect, List.filter]

/-- **C8 witness.** User 7 confirms the staged text "hello" for channel
`-100600` (registered, moderation off): one SENT record with that text and
one publish carrying it; on failure the store is unchanged and the error is
reported. -/
theorem direct_send_round_trip_witness :
    (on_send_buttons exDB 7
        ⟨some "send_wait_content", some (-100600), some ⟨"text", some "hello", none⟩, none⟩
        "send_confirm" true "net down" "t1").1.submissions
      = exDB.submissions ++ [⟨2, -100600, 7, "text", some "hello", none, STATUS_SENT, "t1"⟩]
    ∧ (on_send_buttons exDB 7
        ⟨some "send_wait_content", some (-100600), some ⟨"text", some "hello", none⟩, none⟩
        "send_confirm" true "net down" "t1").2.2.filter isSendEffect
      = [Effect.send (PlatformSend.message (-100600) "hello")]
    ∧ (on_send_buttons exDB 7
        ⟨some "send_wait_content", some (-100600), some ⟨"text", some "hello", none⟩, none⟩
        "send_confirm" false "net down" "t1").1 = exDB :=
  ⟨((direct_send_round_trip exDB 7 (-100600)
      ⟨some "send_wait_content", some (-100600), some ⟨"text", some "hello", none⟩, none⟩
      "hello" "net down" "t1" ⟨-100600, none, 1, 0, "owner", "t0"⟩
      rfl (by decide) rfl (by decide) (by decide) (by decide)).1).1,
   ((direct_send_round_trip exDB 7 (-100600)
      ⟨some "send_wait_content", some (-100600), some ⟨"text", some "hello", none⟩, none⟩
      "hello" "net down" "t1" ⟨-100600, none, 1, 0, "owner", "t0"⟩
      rfl (by decide) rfl (by decide) (by decide) (by decide)).1).2,
   ((direct_send_round_trip exDB 7 (-100600)
      ⟨some "send_wait_content", some (-100600), some ⟨"text", some "hello", none⟩, none⟩
      "hello" "net down" "t1" ⟨-100600, none, 1, 0, "owner", "t0"⟩
      rfl (by decide) rfl (by decide) (by decide) (by decide)).2).1⟩

/-- **C10.** Pressing the send-confirmation action with no selected channel or
no staged content leaves the store unchanged (no submission, no publish),
replies that there is nothing to send, and resets the user's send state (mode
cleared, selected channel and staged content cleared). -/
theorem confirm_without_staging_resets (db : DB) (uid : Int) (s : UserState)
    (publishOk : Bool) (err now : String)
    (h : s.selected_chat_id = none ∨ s.pending = none) :
    (on_send_buttons db uid s "send_confirm" publishOk err now).1 = db
    ∧ (on_send_buttons db uid s "send_confirm" publishOk err now).2.1 = reset_send s
    ∧ (on_send_buttons db uid s "send_confirm" publishOk err now).2.2
      = [Effect.replyUser "Нечего отправлять."] := by
  have hr : on_send_buttons db uid s "send_confirm" publishOk err now
      = (db, reset_send s, [Effect.replyUser "Нечего отправлять."]) := by
    unfold on_send_buttons
    rcases h with h | h
    · simp [h]
    · cases hsel : s.selected_chat_id with
      | none => simp [hsel]
      | some c => simp [hsel, h]
  exact ⟨by rw [hr], by rw [hr], by rw [hr]⟩

/-- **C10 witness.** A fresh user confirms with nothing selected or staged:
store unchanged, state reset, "nothing to send" reply. -/
theorem confirm_without_staging_resets_witness :
    (on_send_buttons exDB 7 freshState "send_confirm" true "e" "t1").1 = exDB
    ∧ (on_send_buttons exDB 7 freshState "send_confirm" true "e" "t1").2.1
      = reset_send freshState
    ∧ (on_send_buttons exDB 7 freshState "send_confirm" true "e" "t1").2.2
      = [Effect.replyUser "Нечего отправлять."] :=
  confirm_without_staging_resets exDB 7 freshState true "e" "t1" (Or.inl rfl)
